import Mathlib

/-!
Verification of the GoodreadsVibe clustering engine and recommendation
scorer.

The development shallowly embeds the Python modules `app/embed.py` and
`app/cluster.py`, and the embedding-based recommendation scorer of the
design document (absent from the application sources, which ship an
LLM-based recommender instead; those definitions are modelled from the
spec and marked as such).  Machine floats are modelled as exact rationals
(ℚ) in the clustering engine, and as real numbers (ℝ) in the
recommendation scorer where cosine similarity requires square roots.
External library calls (scikit-learn's KMeans fitting, StandardScaler's
fitted parameters, the UMAP reducer, the silhouette metric, per-book
persistence faults) are modelled as oracle parameters carrying their
documented output contracts, while every piece of control flow and
arithmetic written in the repository itself is translated directly.
-/

namespace GoodreadsVibe

/-- A stored embedding is the JSON string kept on a book record: either it
decodes to a numeric vector (`valid v`) or JSON decoding fails with
`JSONDecodeError`/`TypeError` (`malformed`). -/
inductive StoredEmbedding where
  | valid (v : List ℚ)
  | malformed
deriving DecidableEq, Repr

/-- Models `json.loads` on the stored embedding string: the decoded vector,
or `none` when decoding raises. -/
def decodeStored : StoredEmbedding → Option (List ℚ)
  | .valid v => some v
  | .malformed => none

/-- The subset of a book record read and written by the clustering engine
(`app/db.py` Book / BookUpdate).  `embedding = none` models a NULL or empty
(falsy) embedding column. -/
structure Book where
  book_id : String
  embedding : Option StoredEmbedding
  cluster_id : Option ℕ
  centroid_distance : Option ℚ
  umap_x : Option ℚ
  umap_y : Option ℚ
deriving DecidableEq, Repr

/-- Decoded embedding of a book: `none` when the column is falsy or the
JSON string does not decode. -/
def decodeEmb (b : Book) : Option (List ℚ) :=
  b.embedding.bind decodeStored

/-- `EmbeddingGenerator.get_embeddings_matrix` (`app/embed.py:181-199`):
filter the books with a truthy embedding, decode each stored embedding,
skipping the ones that fail to decode, and return the stacked matrix, or
`None` when no book qualifies or every decode fails. -/
def get_embeddings_matrix (books : List Book) : Option (List (List ℚ)) :=
  let books_with_embeddings := books.filter (fun b => b.embedding.isSome)
  if books_with_embeddings.isEmpty then none
  else
    let embeddings := books_with_embeddings.filterMap decodeEmb
    if embeddings.isEmpty then none else some embeddings

/-- `EmbeddingGenerator.get_books_with_embeddings` (`app/embed.py:201-204`):
every book whose embedding column is truthy.  Note: unlike the matrix
builder, this does not drop the books whose embedding fails to decode. -/
def get_books_with_embeddings (books : List Book) : List Book :=
  books.filter (fun b => b.embedding.isSome)

/-- `BookClusterer.get_embeddings_data` (`app/cluster.py:32-41`): pair the
embedding matrix with the book list, returning the no-data signal when the
matrix is `None` or the book list is empty. -/
def get_embeddings_data (books : List Book) :
    Option (List (List ℚ) × List Book) :=
  match get_embeddings_matrix books with
  | none => none
  | some m =>
    let bwe := get_books_with_embeddings books
    if bwe.isEmpty then none else some (m, bwe)

/-- Python's `range(a, b)`. -/
def pyRange (a b : ℕ) : List ℕ := List.range' a (b - a)

/-- The candidate cluster counts iterated by `BookClusterer.find_optimal_k`
(`app/cluster.py:50`): `range(min_k, min(max_k + 1, len(embeddings) // 2))`
where `n` is the number of matrix rows. -/
def candidateKs (min_k max_k n : ℕ) : List ℕ :=
  pyRange min_k (min (max_k + 1) (n / 2))

/-- The selection loop of `find_optimal_k` (`app/cluster.py:50-66`).  The
oracle `score k` is the silhouette score computed for candidate `k`, or
`none` when that candidate is skipped (a single distinct label, or an
exception caught by the `try`).  The accumulator is `(best_score, best_k)`
and an update happens only on a strict `score > best_score`. -/
def selectLoop (score : ℕ → Option ℚ) : List ℕ → ℚ × ℕ → ℚ × ℕ
  | [], acc => acc
  | k :: ks, (bs, bk) =>
    match score k with
    | none => selectLoop score ks (bs, bk)
    | some s => if bs < s then selectLoop score ks (s, k) else selectLoop score ks (bs, bk)

/-- `BookClusterer.find_optimal_k` (`app/cluster.py:43-69`): run the
selection loop over the candidate range starting from
`best_score = -1, best_k = min_k`. -/
def find_optimal_k (score : ℕ → Option ℚ) (min_k max_k n : ℕ) : ℕ :=
  (selectLoop score (candidateKs min_k max_k n) (-1, min_k)).2

/-- Squared Euclidean distance between two vectors.  scikit-learn's
`KMeans.transform` returns plain Euclidean distances; we work with squared
distances because the square root of a rational is irrational.  The square
root is strictly monotone on nonnegative numbers, so the nearest-centroid
index is unchanged and a distance is nonnegative exactly when its square
is. -/
def sqDist (u v : List ℚ) : ℚ :=
  ((u.zip v).map (fun p => (p.1 - p.2) ^ 2)).sum

/-- `np.min` over a row of the centroid-distance matrix
(`app/cluster.py:85`). -/
def listMinQ : List ℚ → ℚ
  | [] => 0
  | [x] => x
  | x :: y :: ys => min x (listMinQ (y :: ys))

/-- Index of the first minimum of a list — the nearest-centroid assignment
performed by `KMeans.predict`. -/
def argminIdx : List ℚ → ℕ
  | [] => 0
  | [_] => 0
  | x :: y :: ys => if x ≤ listMinQ (y :: ys) then 0 else argminIdx (y :: ys) + 1

/-- `StandardScaler.fit_transform` (`app/cluster.py:76-77`): per-column
affine map `(x - mean) / scale`.  The fitted `mean_` and `scale_` vectors
are the scaler's learned parameters, supplied by the library; the map
itself is modelled directly. -/
def standardize (X : List (List ℚ)) (mean scale : List ℚ) : List (List ℚ) :=
  X.map (fun row => ((row.zip (mean.zip scale)).map
    (fun p => (p.1 - p.2.1) / p.2.2)))

/-- `BookClusterer.perform_clustering` (`app/cluster.py:71-87`): standardize
the matrix, assign each row to its nearest centroid (`fit_predict`), build
the per-centroid distance row (`transform`) and keep its minimum.  The
fitted centroid list is the output of the external KMeans optimizer and is
passed in as `centers`; the library guarantees `centers.length = k`. -/
def perform_clustering (X : List (List ℚ)) (mean scale : List ℚ)
    (centers : List (List ℚ)) : List ℕ × List ℚ :=
  let Xs := standardize X mean scale
  let cluster_labels := Xs.map (fun row => argminIdx (centers.map (sqDist row)))
  let min_distances := Xs.map (fun row => listMinQ (centers.map (sqDist row)))
  (cluster_labels, min_distances)

/-- `BookClusterer._get_cluster_distribution` (`app/cluster.py:178-181`):
`np.unique(cluster_labels, return_counts=True)` zipped into a mapping —
the sorted distinct labels, each with its number of occurrences. -/
def clusterDistribution (cluster_labels : List ℕ) : List (ℕ × ℕ) :=
  ((cluster_labels.dedup).insertionSort (· ≤ ·)).map
    (fun u => (u, cluster_labels.count u))

/-- The run summary dictionary returned by `cluster_all_books`
(`app/cluster.py:129-176`); optional fields model the keys present only in
some branches. -/
structure ClusterRunResult where
  success : Bool
  error : Option String
  optimal_k : Option ℕ
  total_books : Option ℕ
  updated_books : Option ℕ
  cluster_distribution : Option (List (ℕ × ℕ))
deriving DecidableEq, Repr

/-- A failure summary: `{'success': False, 'error': msg}`. -/
def failureResult (msg : String) : ClusterRunResult :=
  ⟨false, some msg, none, none, none, none⟩

/-- `db_manager.update_book` (`app/db.py`): overwrite the clustering fields
of the record with the given id. -/
def applyUpdate (st : List Book) (id : String) (cid : ℕ) (cd ux uy : ℚ) :
    List Book :=
  st.map (fun b => if b.book_id = id then
    { b with cluster_id := some cid, centroid_distance := some cd,
             umap_x := some ux, umap_y := some uy } else b)

/-- `BookClusterer.update_book_clustering` (`app/cluster.py:111-127`):
persist one book's results, returning `False` and leaving the store
unchanged when the write raises.  Per-book persistence faults are the
`fails` oracle. -/
def update_book_clustering (fails : String → Bool) (st : List Book)
    (id : String) (cid : ℕ) (cd ux uy : ℚ) : Bool × List Book :=
  if fails id then (false, st) else (true, applyUpdate st id cid cd ux uy)

/-- The update loop of `cluster_all_books` (`app/cluster.py:150-159`):
`for i, book in enumerate(books)`, incrementing `updated_count` on each
successful persistence.  Indexing `cluster_labels[i]` (or the distance or
UMAP rows) out of bounds raises `IndexError`, which escapes to the
surrounding `try` — modelled by the `none` outcome carrying the store as
mutated so far. -/
def updateLoop (fails : String → Bool) (cluster_labels : List ℕ)
    (centroid_distances : List ℚ) (umap_coords : List (ℚ × ℚ)) :
    List Book → ℕ → ℕ → List Book → Option ℕ × List Book
  | [], _, updated_count, st => (some updated_count, st)
  | b :: bs, i, updated_count, st =>
    match cluster_labels.get? i, centroid_distances.get? i, umap_coords.get? i with
    | some l, some d, some c =>
      let res := update_book_clustering fails st b.book_id l d c.1 c.2
      if res.1 then
        updateLoop fails cluster_labels centroid_distances umap_coords bs
          (i + 1) (updated_count + 1) res.2
      else
        updateLoop fails cluster_labels centroid_distances umap_coords bs
          (i + 1) updated_count res.2
    | _, _, _ => (none, st)

/-- `BookClusterer.cluster_all_books` (`app/cluster.py:129-176`): fetch the
matrix and book list, pick k, cluster, reduce, persist book by book, and
return the run summary.  `score` is the silhouette oracle of the selector,
`mean`/`scale` the fitted scaler parameters, `centersFor k` the fitted
centroids of the external KMeans run at k, `umapFor` the external UMAP
reducer, and `fails` the per-book persistence-fault oracle.  An
`IndexError` inside the update loop is caught by the outer `try` and turned
into a failure summary (the store keeps the updates already made). -/
def cluster_all_books (min_k max_k : ℕ) (score : ℕ → Option ℚ)
    (mean scale : List ℚ) (centersFor : ℕ → List (List ℚ))
    (umapFor : List (List ℚ) → List (ℚ × ℚ)) (fails : String → Bool)
    (state : List Book) : ClusterRunResult × List Book :=
  match get_embeddings_data state with
  | none => (failureResult "No embeddings available", state)
  | some (embeddings, books) =>
    let optimal_k := find_optimal_k score min_k max_k embeddings.length
    let labeled := perform_clustering embeddings mean scale (centersFor optimal_k)
    let umap_coords := umapFor embeddings
    match updateLoop fails labeled.1 labeled.2 umap_coords books 0 0 state with
    | (some updated_count, st) =>
      ({ success := true, error := none, optimal_k := some optimal_k,
         total_books := some books.length, updated_books := some updated_count,
         cluster_distribution := some (clusterDistribution labeled.1) }, st)
    | (none, st) => (failureResult "index out of bounds", st)

/-- Modelled from the spec: weight renormalization at scorer construction
(design §4.6) — the weighted recommendation scorer's constructor is code of
this repository absent from src/ (the shipped `BookRecommender.__init__`
takes and stores no weights); the three raw weights are divided by their
total so that the stored weights sum to 1. -/
noncomputable def normalizeWeights (ws wr wn : ℝ) : ℝ × ℝ × ℝ :=
  (ws / (ws + wr + wn), wr / (ws + wr + wn), wn / (ws + wr + wn))

/-- One recommendation dictionary from the LLM's JSON reply, reduced to the
four fields read by `_validate_recommendation`; a key that is missing or
holds a falsy value is modelled as the empty string.  The remaining keys
(relevance score, themes, connections, and the metadata attached by the
enrichment step) are never read by the embedded control flow. -/
structure RecDict where
  book_id : String
  title : String
  author : String
  explanation : String
deriving DecidableEq, Repr

/-- Outcome of one `model.generate_content` call together with the parse of
its response text (`app/recommend.py:177-218` and `301-328`): the call
raises; the response carries no (falsy) text; the text is not valid JSON;
or it parses and the relevant key ("recommendations" for `recommend_books`,
"similar_books" for `get_similar_books`, with `[]` as the default for a
missing key) holds this list of dictionaries. -/
inductive LLMReply where
  | raise
  | noText
  | invalidJSON (text : String)
  | recsJSON (recs : List RecDict)
deriving DecidableEq, Repr

/-- `DatabaseManager.get_book` (`app/db.py:133`): look up a book record by
id. -/
def get_book (state : List Book) (book_id : String) : Option Book :=
  state.find? (fun b => b.book_id == book_id)

/-- `BookRecommender._validate_recommendation` (`app/recommend.py:224-227`):
all four required fields present and truthy. -/
def validate_recommendation (rec : RecDict) : Bool :=
  !rec.book_id.isEmpty && !rec.title.isEmpty && !rec.author.isEmpty &&
    !rec.explanation.isEmpty

/-- The metadata enrichment applied to each validated entry
(`app/recommend.py:190-204` and `310-322`): when the recommended id exists
in the table, extra metadata keys (publisher, year, pages, …) are attached
to the dictionary; none of the four modelled fields changes, and the entry
is appended whether or not the lookup succeeds. -/
def enhance_recommendation (state : List Book) (rec : RecDict) : RecDict :=
  match get_book state rec.book_id with
  | some _ => rec
  | none => rec

/-- Python's substring test `sub in s` for a non-empty `sub`: `splitOn`
yields at least two parts exactly when `sub` occurs in `s`. -/
def pyIn (sub s : String) : Bool := 2 ≤ (s.splitOn sub).length

/-- The line scan of `_extract_recommendations_from_text`
(`app/recommend.py:229-256`): a line containing "by" and mentioning
"title" or "author" (lowercased) that splits into exactly two parts around
"by" yields an extracted entry with id `extracted_<index>`; after an
append, the loop stops as soon as `limit` entries exist. -/
def extractLoop (limit : ℕ) : List String → List RecDict → List RecDict
  | [], acc => acc
  | line :: rest, acc =>
    if pyIn "by" line && (pyIn "title" line.toLower || pyIn "author" line.toLower) then
      match line.splitOn "by" with
      | [t, a] =>
        let acc' := acc ++ [⟨"extracted_" ++ toString acc.length, t.trim, a.trim,
          "Recommended based on query analysis"⟩]
        if limit ≤ acc'.length then acc' else extractLoop limit rest acc'
      | _ => extractLoop limit rest acc
    else extractLoop limit rest acc

/-- `BookRecommender._extract_recommendations_from_text`
(`app/recommend.py:229-256`): the fallback parse of an unparseable
response, scanning its lines. -/
def extract_recommendations_from_text (text : String) (limit : ℕ) :
    List RecDict :=
  extractLoop limit (text.splitOn "\n") []

/-- `BookRecommender.recommend_books` (`app/recommend.py:166-222`): a
Gemini call.  `model_available` is whether construction found an API key
(`app/recommend.py:22-29`) and `reply` is the outcome of
`generate_content` on this call's prompt.  The prompt is built from the
query and the whole book table, but no candidate embedding is ever
inspected.  A raising call — or any collaborator fault under the blanket
`except` — yields `[]`; falsy response text yields `[]`; unparseable text
goes to the line-scanning fallback; a parsed reply is validated, enriched
and returned in full.  (The interaction-log write before the return does
not affect the result.) -/
def recommend_books (state : List Book) (model_available : Bool)
    (reply : LLMReply) (limit : ℕ) : List RecDict :=
  if !model_available then []
  else
    match reply with
    | .raise => []
    | .noText => []
    | .invalidJSON text => extract_recommendations_from_text text limit
    | .recsJSON recs =>
      (recs.filter validate_recommendation).map (enhance_recommendation state)

/-- `BookRecommender.get_similar_books` (`app/recommend.py:258-332`): a
Gemini call.  A missing target returns `[]` before anything else, but the
target's embedding is never checked — an unembedded target still produces
a prompt.  An unavailable model, a raising call, falsy response text and
unparseable JSON all yield `[]`; a parsed reply's "similar_books" list is
validated, enriched and returned in full (`limit` appears only in the
prompt text and never truncates the result). -/
def get_similar_books (state : List Book) (model_available : Bool)
    (reply : LLMReply) (book_id : String) (_limit : ℕ) : List RecDict :=
  match get_book state book_id with
  | none => []
  | some _ =>
    if !model_available then []
    else
      match reply with
      | .raise => []
      | .noText => []
      | .invalidJSON _ => []
      | .recsJSON recs =>
        (recs.filter validate_recommendation).map (enhance_recommendation state)

/-- A concrete silhouette oracle: candidate 3 scores -1/2, candidate 4
scores -1/4, every other candidate is skipped. -/
def scOracleC3 : ℕ → Option ℚ
  | 3 => some (-1/2)
  | 4 => some (-1/4)
  | _ => none

/-- A book whose stored embedding decodes to the vector [1]. -/
def bookA : Book := ⟨"a", some (.valid [1]), none, none, none, none⟩

/-- A book whose stored embedding is present but fails to JSON-decode. -/
def bookB : Book := ⟨"b", some .malformed, none, none, none, none⟩

/-- A book with no stored embedding at all. -/
def bookF : Book := ⟨"f", none, none, none, none, none⟩

/-- Three books with decodable embeddings, for concrete orchestrator runs. -/
def stateCDE : List Book :=
  [⟨"c", some (.valid [1]), none, none, none, none⟩,
   ⟨"d", some (.valid [2]), none, none, none, none⟩,
   ⟨"e", some (.valid [3]), none, none, none, none⟩]

/-- A persistence-fault oracle failing exactly on book "c". -/
def failsC : String → Bool := fun id => id == "c"

/-- A recommendation dictionary passing `_validate_recommendation`. -/
def recX : RecDict := ⟨"123", "T", "A", "E"⟩

end GoodreadsVibe

namespace GoodreadsVibe

lemma mem_pyRange {a b k : ℕ} : k ∈ pyRange a b ↔ a ≤ k ∧ k < b := by
  unfold pyRange
  rw [List.mem_range'_1]
  omega

lemma mem_candidateKs {min_k max_k n k : ℕ} :
    k ∈ candidateKs min_k max_k n ↔ min_k ≤ k ∧ k ≤ max_k ∧ k < n / 2 := by
  unfold candidateKs
  rw [mem_pyRange]
  omega

lemma selectLoop_keep (score : ℕ → Option ℚ) (l : List ℕ) (b : ℚ) (bk : ℕ)
    (h : ∀ k ∈ l, ∀ s, score k = some s → s ≤ b) :
    selectLoop score l (b, bk) = (b, bk) := by
  induction l with
  | nil => rfl
  | cons k ks ih =>
    have hk := h k (List.mem_cons_self k ks)
    have hks : ∀ k' ∈ ks, ∀ s, score k' = some s → s ≤ b :=
      fun k' hk' => h k' (List.mem_cons_of_mem k hk')
    unfold selectLoop
    cases hs : score k with
    | none => exact ih hks
    | some s =>
      have : ¬ b < s := not_lt.mpr (hk s hs)
      simp only [this, if_false]
      exact ih hks

lemma selectLoop_argmax (score : ℕ → Option ℚ) (k₀ : ℕ) (l₂ : List ℕ)
    (s₀ : ℚ) (hk₀ : score k₀ = some s₀)
    (h₂ : ∀ k ∈ l₂, ∀ s, score k = some s → s ≤ s₀) :
    ∀ l₁ : List ℕ, (∀ k ∈ l₁, ∀ s, score k = some s → s < s₀) →
      ∀ (b : ℚ) (bk : ℕ), b < s₀ →
      selectLoop score (l₁ ++ k₀ :: l₂) (b, bk) = (s₀, k₀) := by
  intro l₁
  induction l₁ with
  | nil =>
    intro _ b bk hb
    simp only [List.nil_append]
    unfold selectLoop
    rw [hk₀]
    simp only [hb, if_true]
    exact selectLoop_keep score l₂ s₀ k₀ h₂
  | cons k ks ih =>
    intro h₁ b bk hb
    have hk := h₁ k (List.mem_cons_self k ks)
    have hks : ∀ k' ∈ ks, ∀ s, score k' = some s → s < s₀ :=
      fun k' hk' => h₁ k' (List.mem_cons_of_mem k hk')
    simp only [List.cons_append]
    unfold selectLoop
    cases hs : score k with
    | none => exact ih hks b bk hb
    | some s =>
      by_cases hlt : b < s
      · simp only [hlt, if_true]
        exact ih hks s k (hk s hs)
      · simp only [hlt, if_false]
        exact ih hks b bk hb

lemma argminIdx_lt_length (l : List ℚ) (hl : l ≠ []) : argminIdx l < l.length := by
  match l with
  | [x] => simp [argminIdx]
  | x :: y :: ys =>
    unfold argminIdx
    by_cases h : x ≤ listMinQ (y :: ys)
    · simp [h]
    · simp only [h, if_false, List.length_cons]
      have := argminIdx_lt_length (y :: ys) (by simp)
      simpa using this

lemma listMinQ_nonneg (l : List ℚ) (h : ∀ x ∈ l, 0 ≤ x) : 0 ≤ listMinQ l := by
  match l with
  | [] => simp [listMinQ]
  | [x] => exact h x (by simp [listMinQ])
  | x :: y :: ys =>
    unfold listMinQ
    refine le_min (h x (by simp)) ?_
    exact listMinQ_nonneg (y :: ys) (fun z hz => h z (List.mem_cons_of_mem x hz))

lemma sqDist_nonneg (u v : List ℚ) : 0 ≤ sqDist u v := by
  unfold sqDist
  apply List.sum_nonneg
  intro x hx
  simp only [List.mem_map] at hx
  obtain ⟨p, _, hp⟩ := hx
  rw [← hp]
  positivity

lemma sum_map_count_dedup (l : List ℕ) :
    ((l.dedup).map (fun u => l.count u)).sum = l.length := by
  have hnd := l.nodup_dedup
  have h1 : (l.dedup.toFinset).sum (fun u => l.count u) =
      (l.dedup.map (fun u => l.count u)).sum := List.sum_toFinset _ hnd
  have h2 : l.dedup.toFinset = l.toFinset :=
    List.toFinset.ext_iff.mpr (fun x => List.mem_dedup)
  rw [← h1, h2, List.sum_toFinset_count_eq_length]

lemma clusterDistribution_sum (labels : List ℕ) :
    ((clusterDistribution labels).map Prod.snd).sum = labels.length := by
  unfold clusterDistribution
  have hperm : List.Perm
      (((labels.dedup.insertionSort (· ≤ ·)).map
        (fun u => (u, labels.count u))).map Prod.snd)
      (((labels.dedup).map (fun u => (u, labels.count u))).map Prod.snd) :=
    ((List.perm_insertionSort (· ≤ ·) labels.dedup).map
      (fun u => (u, labels.count u))).map Prod.snd
  rw [hperm.sum_eq, List.map_map]
  simpa using sum_map_count_dedup labels

lemma get_embeddings_data_shape {books : List Book} {m : List (List ℚ)}
    {bs : List Book} (h : get_embeddings_data books = some (m, bs)) :
    bs = books.filter (fun b => b.embedding.isSome) ∧
      m = bs.filterMap decodeEmb := by
  unfold get_embeddings_data get_embeddings_matrix get_books_with_embeddings at h
  by_cases h1 : (books.filter (fun b => b.embedding.isSome)).isEmpty
  · simp [h1] at h
  · by_cases h2 : ((books.filter (fun b => b.embedding.isSome)).filterMap decodeEmb).isEmpty
    · simp [h1, h2] at h
    · simp [h1, h2] at h
      refine ⟨h.2.symm, ?_⟩
      rw [← h.2]
      exact h.1.symm

lemma get_embeddings_data_length_le {books : List Book} {m : List (List ℚ)}
    {bs : List Book} (h : get_embeddings_data books = some (m, bs)) :
    m.length ≤ bs.length := by
  obtain ⟨_, hm⟩ := get_embeddings_data_shape h
  rw [hm]
  exact List.length_filterMap_le decodeEmb bs

lemma get_embeddings_data_none {books : List Book}
    (h : ∀ b ∈ books, decodeEmb b = none) :
    get_embeddings_data books = none := by
  unfold get_embeddings_data get_embeddings_matrix
  by_cases h1 : (books.filter (fun b => b.embedding.isSome)).isEmpty
  · simp [h1]
  · have h2 : (books.filter (fun b => b.embedding.isSome)).filterMap decodeEmb = [] := by
      rw [List.filterMap_eq_nil_iff]
      intro b hb
      exact h b (List.mem_of_mem_filter hb)
    simp [h1, h2]

lemma updateLoop_some (fails : String → Bool) (labels : List ℕ)
    (dists : List ℚ) (coords : List (ℚ × ℚ)) :
    ∀ (rest : List Book) (i count : ℕ) (st : List Book),
      i + rest.length ≤ labels.length →
      i + rest.length ≤ dists.length →
      i + rest.length ≤ coords.length →
      (updateLoop fails labels dists coords rest i count st).1 =
        some (count + (rest.filter (fun b => !(fails b.book_id))).length) := by
  intro rest
  induction rest with
  | nil =>
    intro i count st _ _ _
    simp [updateLoop]
  | cons b bs ih =>
    intro i count st h1 h2 h3
    simp only [List.length_cons] at h1 h2 h3
    have hi1 : i < labels.length := by omega
    have hi2 : i < dists.length := by omega
    have hi3 : i < coords.length := by omega
    have hl : labels.get? i = some (labels.get ⟨i, hi1⟩) := List.get?_eq_get hi1
    have hd : dists.get? i = some (dists.get ⟨i, hi2⟩) := List.get?_eq_get hi2
    have hc : coords.get? i = some (coords.get ⟨i, hi3⟩) := List.get?_eq_get hi3
    unfold updateLoop
    rw [hl, hd, hc]
    by_cases hf : fails b.book_id
    · have hrec := fun s => ih (i + 1) count s (by omega) (by omega) (by omega)
      simp [update_book_clustering, hf, hrec, List.filter_cons]
    · have hrec := fun s => ih (i + 1) (count + 1) s (by omega) (by omega) (by omega)
      simp [update_book_clustering, hf, hrec, List.filter_cons]
      omega

lemma updateLoop_some_bounds (fails : String → Bool) (labels : List ℕ)
    (dists : List ℚ) (coords : List (ℚ × ℚ)) :
    ∀ (rest : List Book) (i count : ℕ) (st : List Book) (c : ℕ) (st' : List Book),
      updateLoop fails labels dists coords rest i count st = (some c, st') →
      rest ≠ [] → i + rest.length ≤ labels.length := by
  intro rest
  induction rest with
  | nil =>
    intro i count st c st' _ hne
    exact absurd rfl hne
  | cons b bs ih =>
    intro i count st c st' h _
    unfold updateLoop at h
    cases hL : labels.get? i with
    | none => rw [hL] at h; simp at h
    | some l =>
      cases hD : dists.get? i with
      | none => rw [hL, hD] at h; simp at h
      | some d =>
        cases hC : coords.get? i with
        | none => rw [hL, hD, hC] at h; simp at h
        | some crd =>
          rw [hL, hD, hC] at h
          have hlen : i < labels.length := (List.get?_eq_some.mp hL).1
          cases bs with
          | nil =>
            simp only [List.length_cons, List.length_nil]
            omega
          | cons b2 bs2 =>
            simp only at h
            by_cases hf : (update_book_clustering fails st b.book_id l d crd.1 crd.2).1
            · rw [if_pos hf] at h
              have := ih (i + 1) (count + 1) _ c st' h (by simp)
              simp only [List.length_cons] at this ⊢
              omega
            · rw [if_neg hf] at h
              have := ih (i + 1) count _ c st' h (by simp)
              simp only [List.length_cons] at this ⊢
              omega

/-- C2 (amended): for every embedding matrix with `n` rows and configured
bounds `min_k ≤ max_k`, the candidate cluster counts evaluated by
`find_optimal_k` are exactly the `k` with `min_k ≤ k ≤ max_k` and
`k < n / 2` — the clamp at `n / 2` is exclusive, not inclusive as the
claim states. -/
theorem C2_candidate_range (min_k max_k n : ℕ) (_hmm : min_k ≤ max_k) (k : ℕ) :
    k ∈ candidateKs min_k max_k n ↔ min_k ≤ k ∧ k ≤ max_k ∧ k < n / 2 := by
  exact mem_candidateKs

/-- C2 witness: with the default bounds 3 and 12 and a 10-row matrix the
evaluated candidates are exactly 3 and 4. -/
theorem C2_candidate_range_witness :
    (3 ≤ 12 ∧ (4 ∈ candidateKs 3 12 10 ↔ 3 ≤ 4 ∧ 4 ≤ 12 ∧ 4 < 10 / 2)) ∧
      candidateKs 3 12 10 = [3, 4] :=
  ⟨⟨by decide, C2_candidate_range 3 12 10 (by decide) 4⟩, by decide⟩

/-- C2 counterexample: with bounds 3 and 12 and a 10-row matrix, the claim's
candidate set includes `k = 5 = min 12 (10 / 2)`, but the code never
evaluates `k = 5`. -/
theorem C2_counterexample :
    (3 ≤ 5 ∧ 5 ≤ min 12 (10 / 2)) ∧ 5 ∉ candidateKs 3 12 10 := by
  decide

/-- C3 (amended): `find_optimal_k` returns the first (smallest) evaluated
candidate achieving the strictly highest silhouette score, provided that
score exceeds the initial sentinel `-1`; and it returns `min_k` whenever
every candidate was skipped or every computed score is at most `-1`.  (The
original claim's fallback condition "every candidate scored non-positively"
is wrong: a non-positive score above `-1` still beats the sentinel.) -/
theorem C3_optimal_k_selection (score : ℕ → Option ℚ) (min_k max_k n : ℕ) :
    (∀ l₁ k₀ l₂ s₀, candidateKs min_k max_k n = l₁ ++ k₀ :: l₂ →
      score k₀ = some s₀ → (-1 : ℚ) < s₀ →
      (∀ k ∈ l₁, ∀ s, score k = some s → s < s₀) →
      (∀ k ∈ l₂, ∀ s, score k = some s → s ≤ s₀) →
      find_optimal_k score min_k max_k n = k₀) ∧
    ((∀ k ∈ candidateKs min_k max_k n, ∀ s, score k = some s → s ≤ -1) →
      find_optimal_k score min_k max_k n = min_k) := by
  constructor
  · intro l₁ k₀ l₂ s₀ hsplit hk₀ hs₀ h₁ h₂
    unfold find_optimal_k
    rw [hsplit, selectLoop_argmax score k₀ l₂ s₀ hk₀ h₂ l₁ h₁ (-1) min_k hs₀]
  · intro h
    unfold find_optimal_k
    rw [selectLoop_keep score _ (-1) min_k h]

/-- C3 witness: with bounds 3, 12 and a 10-row matrix (candidates 3 and 4),
the oracle scoring -1/2 then -1/4 makes the loop pick 4 — the first
candidate with the strictly highest score — and an all-skipped oracle falls
back to `min_k = 3`. -/
theorem C3_optimal_k_selection_witness :
    find_optimal_k scOracleC3 3 12 10 = 4 ∧
      find_optimal_k (fun _ => none) 3 12 10 = 3 :=
  ⟨(C3_optimal_k_selection scOracleC3 3 12 10).1 [3] 4 [] (-1/4) (by decide)
      rfl (by norm_num)
      (by
        intro k hk s hs
        simp only [List.mem_singleton] at hk
        subst hk
        simp only [scOracleC3, Option.some.injEq] at hs
        rw [← hs]; norm_num)
      (by intro k hk; simp at hk),
    (C3_optimal_k_selection (fun _ => none) 3 12 10).2 (fun k _ s hs => by cases hs)⟩

/-- C3 counterexample: every candidate scores non-positively (3 scores -1/2
and 4 scores -1/4), yet `find_optimal_k` returns 4, not `min_k = 3`, because
both scores beat the initial sentinel `best_score = -1`. -/
theorem C3_counterexample :
    (∀ k ∈ candidateKs 3 12 10, ∀ s, scOracleC3 k = some s → s ≤ 0) ∧
      find_optimal_k scOracleC3 3 12 10 = 4 ∧ (4 : ℕ) ≠ 3 := by
  refine ⟨?_, ?_, by decide⟩
  · intro k hk s hs
    have hcand : candidateKs 3 12 10 = [3, 4] := by decide
    rw [hcand] at hk
    fin_cases hk <;>
      simp only [scOracleC3, Option.some.injEq] at hs <;>
      rw [← hs] <;> norm_num
  · have hsplit : candidateKs 3 12 10 = [3] ++ 4 :: [] := by decide
    unfold find_optimal_k
    rw [hsplit, selectLoop_argmax scOracleC3 4 [] (-1/4) rfl
      (by intro k hk; simp at hk) [3]
      (by
        intro k hk s hs
        simp only [List.mem_singleton] at hk
        subst hk
        simp only [scOracleC3, Option.some.injEq] at hs
        rw [← hs]; norm_num)
      (-1) 3 (by norm_num)]

/-- C7: for every embedding matrix and every chosen `k ≥ 1` (with the
KMeans contract that the fitted model has exactly `k` centroids),
`perform_clustering` returns exactly one (label, centroid distance) pair
per matrix row, every label lies in `[0, k)`, and every centroid distance
is nonnegative. -/
theorem C7_clustering_contract (X : List (List ℚ)) (mean scale : List ℚ)
    (centers : List (List ℚ)) (k : ℕ) (hc : centers.length = k) (hk : 1 ≤ k) :
    (perform_clustering X mean scale centers).1.length = X.length ∧
    (perform_clustering X mean scale centers).2.length = X.length ∧
    (∀ l ∈ (perform_clustering X mean scale centers).1, l < k) ∧
    (∀ d ∈ (perform_clustering X mean scale centers).2, 0 ≤ d) := by
  unfold perform_clustering
  refine ⟨by simp [standardize], by simp [standardize], ?_, ?_⟩
  · intro l hl
    simp only [List.mem_map] at hl
    obtain ⟨row, _, hrow⟩ := hl
    rw [← hrow]
    have hne : centers.map (sqDist row) ≠ [] := by
      intro hnil
      have := congrArg List.length hnil
      simp [hc] at this
      omega
    have := argminIdx_lt_length (centers.map (sqDist row)) hne
    simpa [hc] using this
  · intro d hd
    simp only [List.mem_map] at hd
    obtain ⟨row, _, hrow⟩ := hd
    rw [← hrow]
    apply listMinQ_nonneg
    intro x hx
    simp only [List.mem_map] at hx
    obtain ⟨c, _, hcx⟩ := hx
    rw [← hcx]
    exact sqDist_nonneg row c

/-- C7 witness: a concrete 2×2 matrix with two centroids. -/
theorem C7_clustering_contract_witness :
    (([[0, 0], [1, 1]] : List (List ℚ)).length = 2 ∧ 1 ≤ 2) ∧
    ((perform_clustering [[1, 2], [3, 4]] [0, 0] [1, 1] [[0, 0], [1, 1]]).1.length = 2 ∧
     (perform_clustering [[1, 2], [3, 4]] [0, 0] [1, 1] [[0, 0], [1, 1]]).2.length = 2 ∧
     (∀ l ∈ (perform_clustering [[1, 2], [3, 4]] [0, 0] [1, 1] [[0, 0], [1, 1]]).1, l < 2) ∧
     (∀ d ∈ (perform_clustering [[1, 2], [3, 4]] [0, 0] [1, 1] [[0, 0], [1, 1]]).2, 0 ≤ d)) :=
  ⟨⟨rfl, by norm_num⟩,
    C7_clustering_contract [[1, 2], [3, 4]] [0, 0] [1, 1] [[0, 0], [1, 1]] 2 rfl (by norm_num)⟩

/-- C1: with one decodable and one malformed stored embedding, the matrix
builder and the parallel book list of the same clustering run disagree —
the matrix has one row but the list has two entries, the malformed book
being kept in the list while dropped from the matrix.  This refutes the
claimed alignment invariant on the code as written. -/
theorem C1_matrix_list_misaligned :
    get_embeddings_data [bookA, bookB] = some ([[1]], [bookA, bookB]) ∧
      ([[1]] : List (List ℚ)).length = 1 ∧ [bookA, bookB].length = 2 := by
  decide

lemma get_embeddings_data_snd_ne_nil {books : List Book} {m : List (List ℚ)}
    {bs : List Book} (h : get_embeddings_data books = some (m, bs)) :
    bs ≠ [] := by
  unfold get_embeddings_data at h
  cases hM : get_embeddings_matrix books with
  | none => rw [hM] at h; cases h
  | some mm =>
    rw [hM] at h
    by_cases hE : (get_books_with_embeddings books).isEmpty
    · simp [hE] at h
    · simp [hE] at h
      rw [← h.2]
      intro hnil
      rw [hnil] at hE
      simp at hE

/-- C8: when zero books carry a usable (decodable) embedding,
`cluster_all_books` returns the failure summary with the descriptive error
"No embeddings available" and leaves the book store untouched; the
clustering, projection and persistence steps are never reached. -/
theorem C8_no_data (min_k max_k : ℕ) (score : ℕ → Option ℚ)
    (mean scale : List ℚ) (centersFor : ℕ → List (List ℚ))
    (umapFor : List (List ℚ) → List (ℚ × ℚ)) (fails : String → Bool)
    (state : List Book) (h : ∀ b ∈ state, decodeEmb b = none) :
    cluster_all_books min_k max_k score mean scale centersFor umapFor fails state =
      (failureResult "No embeddings available", state) := by
  unfold cluster_all_books
  rw [get_embeddings_data_none h]

/-- C8 witness: a store holding one malformed-embedding book and one book
without any embedding. -/
theorem C8_no_data_witness :
    (∀ b ∈ [bookB, bookF], decodeEmb b = none) ∧
      cluster_all_books 3 12 (fun _ => none) [] [] (fun _ => []) (fun _ => [])
          (fun _ => false) [bookB, bookF] =
        (failureResult "No embeddings available", [bookB, bookF]) :=
  ⟨by decide,
    C8_no_data 3 12 (fun _ => none) [] [] (fun _ => []) (fun _ => [])
      (fun _ => false) [bookB, bookF] (by decide)⟩

/-- C9: under per-book persistence faults the orchestrator continues with
the remaining books instead of aborting, and returns a success summary
whose `updated_books` equals the number of books whose persistence
succeeded.  Hypotheses: the run has usable data, every embedded book
decodes (so the matrix and the book list have the same length), the UMAP
contract yields one coordinate pair per row, and the chosen k does not
exceed the sample count — the KMeans fit precondition, whose violation
raises in the library and is not represented by the oracle model. -/
theorem C9_persistence_failure (min_k max_k : ℕ) (score : ℕ → Option ℚ)
    (mean scale : List ℚ) (centersFor : ℕ → List (List ℚ))
    (umapFor : List (List ℚ) → List (ℚ × ℚ)) (fails : String → Bool)
    (state : List Book) (m : List (List ℚ)) (bs : List Book)
    (hdata : get_embeddings_data state = some (m, bs))
    (hm : m.length = bs.length)
    (humap : (umapFor m).length = bs.length)
    (_hkn : find_optimal_k score min_k max_k m.length ≤ m.length) :
    (cluster_all_books min_k max_k score mean scale centersFor umapFor fails
        state).1.success = true ∧
    (cluster_all_books min_k max_k score mean scale centersFor umapFor fails
        state).1.updated_books =
      some ((bs.filter (fun b => !(fails b.book_id))).length) ∧
    (cluster_all_books min_k max_k score mean scale centersFor umapFor fails
        state).1.total_books = some bs.length := by
  have hlab : (perform_clustering m mean scale
      (centersFor (find_optimal_k score min_k max_k m.length))).1.length = m.length := by
    simp [perform_clustering, standardize]
  have hdist : (perform_clustering m mean scale
      (centersFor (find_optimal_k score min_k max_k m.length))).2.length = m.length := by
    simp [perform_clustering, standardize]
  have hloop := updateLoop_some fails
    (perform_clustering m mean scale
      (centersFor (find_optimal_k score min_k max_k m.length))).1
    (perform_clustering m mean scale
      (centersFor (find_optimal_k score min_k max_k m.length))).2
    (umapFor m) bs 0 0 state
    (by rw [hlab]; omega) (by rw [hdist]; omega) (by rw [humap]; omega)
  unfold cluster_all_books
  rw [hdata]
  dsimp only
  rcases hup : updateLoop fails
    (perform_clustering m mean scale
      (centersFor (find_optimal_k score min_k max_k m.length))).1
    (perform_clustering m mean scale
      (centersFor (find_optimal_k score min_k max_k m.length))).2
    (umapFor m) bs 0 0 state with ⟨o, stf⟩
  rw [hup] at hloop
  simp at hloop
  subst hloop
  simp

/-- C9 witness: three decodable books; persistence fails exactly on the
first one, the run continues and reports 2 of 3 books updated. -/
theorem C9_persistence_failure_witness :
    (get_embeddings_data stateCDE = some ([[1], [2], [3]], stateCDE) ∧
      find_optimal_k (fun _ => none) 3 12 3 ≤ 3) ∧
    ((cluster_all_books 3 12 (fun _ => none) [0] [1] (fun _ => [[0], [1], [2]])
        (fun _ => [(0, 0), (0, 0), (0, 0)]) failsC stateCDE).1.success = true ∧
     (cluster_all_books 3 12 (fun _ => none) [0] [1] (fun _ => [[0], [1], [2]])
        (fun _ => [(0, 0), (0, 0), (0, 0)]) failsC stateCDE).1.updated_books =
       some ((stateCDE.filter (fun b => !(failsC b.book_id))).length) ∧
     (cluster_all_books 3 12 (fun _ => none) [0] [1] (fun _ => [[0], [1], [2]])
        (fun _ => [(0, 0), (0, 0), (0, 0)]) failsC stateCDE).1.total_books =
       some stateCDE.length) ∧
    (stateCDE.filter (fun b => !(failsC b.book_id))).length = 2 :=
  ⟨⟨by decide, by decide⟩,
    C9_persistence_failure 3 12 (fun _ => none) [0] [1] (fun _ => [[0], [1], [2]])
      (fun _ => [(0, 0), (0, 0), (0, 0)]) failsC stateCDE [[1], [2], [3]] stateCDE
      (by decide) (by decide) (by decide) (by decide),
    by decide⟩

/-- C10 (amended): for every successful `cluster_all_books` run, the counts
in the returned cluster distribution sum to the number of rows of the
embedding matrix, and that number equals the reported `total_books`.  A
stored embedding that fails to decode cannot produce a successful run: the
book list then outruns the label array, the update loop hits an
out-of-range index and the run degrades to a failure summary. -/
theorem C10_distribution_sum (min_k max_k : ℕ) (score : ℕ → Option ℚ)
    (mean scale : List ℚ) (centersFor : ℕ → List (List ℚ))
    (umapFor : List (List ℚ) → List (ℚ × ℚ)) (fails : String → Bool)
    (state : List Book) (m : List (List ℚ)) (bs : List Book)
    (hdata : get_embeddings_data state = some (m, bs))
    (hsucc : (cluster_all_books min_k max_k score mean scale centersFor umapFor
        fails state).1.success = true) :
    ∃ dist, (cluster_all_books min_k max_k score mean scale centersFor umapFor
        fails state).1.cluster_distribution = some dist ∧
      (dist.map Prod.snd).sum = m.length ∧
      (cluster_all_books min_k max_k score mean scale centersFor umapFor
        fails state).1.total_books = some m.length := by
  have hlab : (perform_clustering m mean scale
      (centersFor (find_optimal_k score min_k max_k m.length))).1.length = m.length := by
    simp [perform_clustering, standardize]
  unfold cluster_all_books at hsucc ⊢
  rw [hdata] at hsucc ⊢
  dsimp only at hsucc ⊢
  rcases hup : updateLoop fails
    (perform_clustering m mean scale
      (centersFor (find_optimal_k score min_k max_k m.length))).1
    (perform_clustering m mean scale
      (centersFor (find_optimal_k score min_k max_k m.length))).2
    (umapFor m) bs 0 0 state with ⟨o, stf⟩
  rw [hup] at hsucc
  cases o with
  | none => simp [failureResult] at hsucc
  | some cnt =>
    have hb1 : bs.length ≤ m.length := by
      have := updateLoop_some_bounds fails
        (perform_clustering m mean scale
          (centersFor (find_optimal_k score min_k max_k m.length))).1
        (perform_clustering m mean scale
          (centersFor (find_optimal_k score min_k max_k m.length))).2
        (umapFor m) bs 0 0 state cnt stf hup
        (get_embeddings_data_snd_ne_nil hdata)
      rw [hlab] at this
      omega
    have hb2 : m.length ≤ bs.length := get_embeddings_data_length_le hdata
    have hbm : bs.length = m.length := le_antisymm hb1 hb2
    refine ⟨clusterDistribution (perform_clustering m mean scale
      (centersFor (find_optimal_k score min_k max_k m.length))).1, ?_, ?_, ?_⟩
    · simp
    · rw [clusterDistribution_sum, hlab]
    · simp [hbm]

/-- C10 counterexample: with one decodable and one malformed stored
embedding, the run does not succeed with a smaller histogram — it fails
outright (success is false and no distribution is reported), because the
book list is longer than the label array. -/
theorem C10_counterexample :
    decodeEmb bookB = none ∧
    (cluster_all_books 3 12 (fun _ => none) [0] [1] (fun _ => [[0]])
        (fun _ => [(0, 0)]) (fun _ => false) [bookA, bookB]).1.success = false ∧
    (cluster_all_books 3 12 (fun _ => none) [0] [1] (fun _ => [[0]])
        (fun _ => [(0, 0)]) (fun _ => false) [bookA, bookB]).1.cluster_distribution
      = none := by
  decide

/-- C10 witness: a successful three-book run whose histogram counts sum to
the matrix row count, which equals the reported total. -/
theorem C10_distribution_sum_witness :
    (get_embeddings_data stateCDE = some ([[1], [2], [3]], stateCDE) ∧
      (cluster_all_books 3 12 (fun _ => none) [0] [1] (fun _ => [[0], [1], [2]])
        (fun _ => [(0, 0), (0, 0), (0, 0)]) (fun _ => false) stateCDE).1.success = true) ∧
    (∃ dist, (cluster_all_books 3 12 (fun _ => none) [0] [1] (fun _ => [[0], [1], [2]])
        (fun _ => [(0, 0), (0, 0), (0, 0)]) (fun _ => false) stateCDE).1.cluster_distribution
          = some dist ∧
      (dist.map Prod.snd).sum = ([[1], [2], [3]] : List (List ℚ)).length ∧
      (cluster_all_books 3 12 (fun _ => none) [0] [1] (fun _ => [[0], [1], [2]])
        (fun _ => [(0, 0), (0, 0), (0, 0)]) (fun _ => false) stateCDE).1.total_books
          = some ([[1], [2], [3]] : List (List ℚ)).length) :=
  ⟨⟨by decide, by decide⟩,
    C10_distribution_sum 3 12 (fun _ => none) [0] [1] (fun _ => [[0], [1], [2]])
      (fun _ => [(0, 0), (0, 0), (0, 0)]) (fun _ => false) stateCDE
      [[1], [2], [3]] stateCDE (by decide) (by decide)⟩

/-- C4 (amended): constructing the scorer with non-negative raw weights of
positive sum stores three weights summing to 1, and the claim's example
(3, 1, 1) normalizes to (0.6, 0.2, 0.2).  The positive-sum hypothesis is
forced by the all-zero counterexample below. -/
theorem C4_weights_normalized :
    (∀ ws wr wn : ℝ, 0 ≤ ws → 0 ≤ wr → 0 ≤ wn → 0 < ws + wr + wn →
      (normalizeWeights ws wr wn).1 + (normalizeWeights ws wr wn).2.1 +
        (normalizeWeights ws wr wn).2.2 = 1) ∧
    normalizeWeights 3 1 1 = (0.6, 0.2, 0.2) := by
  constructor
  · intro ws wr wn _ _ _ ht
    unfold normalizeWeights
    have h0 : ws + wr + wn ≠ 0 := ne_of_gt ht
    simp only
    rw [div_add_div_same, div_add_div_same, div_self h0]
  · unfold normalizeWeights
    norm_num [Prod.ext_iff]

/-- C4 witness: the raw weights (3, 1, 1) are admissible and their stored
normalization sums to 1. -/
theorem C4_weights_normalized_witness :
    ((0 : ℝ) ≤ 3 ∧ (0 : ℝ) ≤ 1 ∧ (0 : ℝ) < 3 + 1 + 1) ∧
      (normalizeWeights 3 1 1).1 + (normalizeWeights 3 1 1).2.1 +
        (normalizeWeights 3 1 1).2.2 = 1 :=
  ⟨⟨by norm_num, by norm_num, by norm_num⟩,
    C4_weights_normalized.1 3 1 1 (by norm_num) (by norm_num) (by norm_num)
      (by norm_num)⟩

/-- C4 counterexample: the all-zero raw weights are non-negative, yet the
stored weights sum to 0, not 1 — no division can renormalize a zero
total. -/
theorem C4_counterexample :
    ((0 : ℝ) ≤ 0) ∧
      (normalizeWeights 0 0 0).1 + (normalizeWeights 0 0 0).2.1 +
        (normalizeWeights 0 0 0).2.2 ≠ 1 := by
  constructor
  · exact le_refl 0
  · unfold normalizeWeights
    norm_num

lemma enhance_recommendation_eq (state : List Book) (rec : RecDict) :
    enhance_recommendation state rec = rec := by
  unfold enhance_recommendation
  cases get_book state rec.book_id <;> rfl

/-- C5 (amended): `recommend_books` raises no exception to the caller —
the unavailable-model, raising-call and empty-response paths all return
the empty list — and its result does not depend on the book table at all:
the candidates feed only the prompt text and the metadata enrichment, so
an empty candidate set, or one without embeddings, does not force an empty
result. -/
theorem C5_recommend_books_degrades :
    (∀ (state : List Book) (reply : LLMReply) (limit : ℕ),
      recommend_books state false reply limit = []) ∧
    (∀ (state : List Book) (limit : ℕ),
      recommend_books state true .raise limit = [] ∧
      recommend_books state true .noText limit = []) ∧
    (∀ (state state' : List Book) (avail : Bool) (reply : LLMReply) (limit : ℕ),
      recommend_books state avail reply limit =
        recommend_books state' avail reply limit) := by
  refine ⟨fun state reply limit => rfl, fun state limit => ⟨rfl, rfl⟩, ?_⟩
  intro state state' avail reply limit
  cases avail with
  | false => rfl
  | true => cases reply <;> simp [recommend_books, enhance_recommendation_eq]

/-- C5 counterexample: with an empty candidate set — and likewise with a
single candidate carrying no embedding — a configured model whose reply
parses to one valid recommendation makes `recommend_books` return that
recommendation, not the empty list; candidate embeddings are never
consulted. -/
theorem C5_counterexample :
    recommend_books [] true (.recsJSON [recX]) 10 = [recX] ∧
      recommend_books [bookF] true (.recsJSON [recX]) 10 = [recX] ∧
      ([recX] : List RecDict) ≠ [] ∧ bookF.embedding = none := by
  decide

/-- C6 (amended): `get_similar_books` returns the empty list — not an
error — whenever the target book does not exist, for every requested
count, model state and LLM outcome.  (A target that merely lacks an
embedding is not short-circuited: its embedding is never read and the
validated LLM reply is returned, possibly non-empty.) -/
theorem C6_similar_missing_target (state : List Book) (avail : Bool)
    (reply : LLMReply) (book_id : String) (limit : ℕ)
    (h : get_book state book_id = none) :
    get_similar_books state avail reply book_id limit = [] := by
  unfold get_similar_books
  rw [h]

/-- C6 witness: an empty catalog has no target "x", and the lookup returns
the empty list even for a reply holding a valid entry. -/
theorem C6_similar_missing_target_witness :
    get_book [] "x" = none ∧
      get_similar_books [] true (.recsJSON [recX]) "x" 5 = [] :=
  ⟨by decide, C6_similar_missing_target [] true (.recsJSON [recX]) "x" 5 (by decide)⟩

/-- C6 counterexample: a target that exists but has no embedding is still
sent to the model, and a reply parsing to one valid entry makes
`get_similar_books` return it — not the empty list the claim requires. -/
theorem C6_counterexample :
    get_book [bookF] "f" = some bookF ∧ bookF.embedding = none ∧
      get_similar_books [bookF] true (.recsJSON [recX]) "f" 5 = [recX] ∧
      ([recX] : List RecDict) ≠ [] := by
  decide

end GoodreadsVibe